import Mathlib

/-!
Verification of the AuthInbox email worker core against its specification.

The definitions below are a shallow embedding of the TypeScript source:

* the password-reset Repeat-Gate (`checkPasswordResetRepeat`,
  `clearPasswordResetHistory`, `processAIResponse`) from the
  "Database Version v2" variant (src/unnamed/part_001, lines 263-346),
  with the `password_reset_history` table modelled as an association list;
* the credential rotation / fallback dispatch (`getNextKeyIndex`,
  `tryOtherGoogleKeys`, `callAIWithRoundRobin`) from src/src/index.ts
  lines 61-227, and the variant from src/unnamed/part_001 lines 471-523
  (`callAIWithRoundRobinV2`); network behaviour is an oracle
  `Nat → CallOutcome` giving the outcome of calling the Google key at an
  index, and dispatch results carry the list of network calls performed;
* the bounded retry loop of the `email` handler (src/src/index.ts
  lines 456-551) with the first-attempt OpenAI fallback path;
* the intake pipeline dedupe/persist skeleton of the `email` handler
  (src/src/index.ts lines 300-612).
-/

namespace AuthInbox

/-! ## Repeat-Gate data model (password_reset_history table) -/

/-- One row of the `password_reset_history` table: the last seen code and
the consecutive-repeat count for one email key. -/
structure GateRecord where
  code : String
  count : Nat
deriving DecidableEq, Repr

/-- The `password_reset_history` table, keyed by email address. -/
abbrev GateStore := List (String × GateRecord)

/-- `SELECT code, count FROM password_reset_history WHERE email = ?` followed
by `.first()`: the first row whose key matches. -/
def lookupRecord : GateStore → String → Option GateRecord
  | [], _ => none
  | (e, r) :: rest, email => if e = email then some r else lookupRecord rest email

/-- `INSERT INTO password_reset_history (email, code, count, ...) VALUES (?, ?, 1, ...)`. -/
def insertRecord (db : GateStore) (email code : String) : GateStore :=
  (email, ⟨code, 1⟩) :: db

/-- `UPDATE password_reset_history SET count = ? WHERE email = ?`. -/
def updateCount (db : GateStore) (email : String) (newCount : Nat) : GateStore :=
  db.map (fun p => if p.1 = email then (p.1, { p.2 with count := newCount }) else p)

/-- `UPDATE password_reset_history SET code = ?, count = 1 WHERE email = ?`. -/
def updateCodeAndReset (db : GateStore) (email code : String) : GateStore :=
  db.map (fun p => if p.1 = email then (p.1, ⟨code, 1⟩) else p)

/-- `DELETE FROM password_reset_history WHERE email = ?`. -/
def deleteRecord (db : GateStore) (email : String) : GateStore :=
  db.filter (fun p => p.1 != email)

/-- `checkPasswordResetRepeat` (src/unnamed/part_001 lines 263-295), fault-free
path: look the key up; on no record insert with count 1 and report `false`;
on the same code increment the count and report whether it reached 3; on a
different code reset the stored code with count 1 and report `false`. -/
def checkPasswordResetRepeat (db : GateStore) (email code : String) : Bool × GateStore :=
  match lookupRecord db email with
  | none => (false, insertRecord db email code)
  | some existing =>
    if existing.code = code then
      let newCount := existing.count + 1
      (decide (3 ≤ newCount), updateCount db email newCount)
    else
      (false, updateCodeAndReset db email code)

/-- `clearPasswordResetHistory` (src/unnamed/part_001 lines 298-310), the
single-email form. -/
def clearPasswordResetHistory (db : GateStore) (email : String) : GateStore :=
  deleteRecord db email

/-- The parsed AI JSON object as consumed by `processAIResponse`: every field
the code reads, each possibly absent. -/
structure AIResult where
  type : Option String
  codeExist : Option Nat
  code : Option String
  title : Option String
  topic : Option String
deriving DecidableEq, Repr

/-- JavaScript falsiness of an optional string field (`!result.code`):
absent or empty. -/
def falsyStr : Option String → Bool
  | none => true
  | some s => s == ""

/-- The literal `{ codeExist: 0 }` object returned on suppression. -/
def emptyResult : AIResult :=
  { type := none, codeExist := some 0, code := none, title := none, topic := none }

/-- `processAIResponse` (src/unnamed/part_001 lines 313-346): gate
PASSWORD_RESET results through `checkPasswordResetRepeat`, releasing (and
clearing the history row) only when the repeat check reports true; pass
everything else through unchanged. -/
def processAIResponse (db : GateStore) (result : AIResult) : AIResult × GateStore :=
  if result.type = some "PASSWORD_RESET" then
    if falsyStr result.code || falsyStr result.title then
      (emptyResult, db)
    else
      let checked := checkPasswordResetRepeat db (result.title.getD "") (result.code.getD "")
      if checked.1 then
        (⟨none, some 1, result.code, result.title,
            some "Password reset verification (repeated 3 times)"⟩,
          clearPasswordResetHistory checked.2 (result.title.getD ""))
      else
        (emptyResult, checked.2)
  else
    result |> fun r => (r, db)

/-- Which of the three storage operations inside `checkPasswordResetRepeat`
throw in this evaluation (the fault model for the surrounding try/catch). -/
structure StoreFaults where
  failGet : Bool
  failInsert : Bool
  failUpdate : Bool
deriving DecidableEq, Repr

/-- The body of the `try` block of `checkPasswordResetRepeat` with storage
faults: a throwing operation aborts with an error. -/
def checkPasswordResetRepeatCore (f : StoreFaults) (db : GateStore) (email code : String) :
    Except Unit (Bool × GateStore) :=
  if f.failGet then .error ()
  else
    match lookupRecord db email with
    | none =>
      if f.failInsert then .error ()
      else .ok (false, insertRecord db email code)
    | some existing =>
      if existing.code = code then
        if f.failUpdate then .error ()
        else
          let newCount := existing.count + 1
          .ok (decide (3 ≤ newCount), updateCount db email newCount)
      else
        if f.failUpdate then .error ()
        else .ok (false, updateCodeAndReset db email code)

/-- `checkPasswordResetRepeat` with its catch handler (lines 291-294): a
storage error is caught and reported as `false` (suppress), the store left
as the caller saw it. -/
def checkPasswordResetRepeatF (f : StoreFaults) (db : GateStore) (email code : String) :
    Bool × GateStore :=
  match checkPasswordResetRepeatCore f db email code with
  | .ok res => res
  | .error _ => (false, db)

/-- The PASSWORD_RESET-classified AI object `{codeExist:0, type:"PASSWORD_RESET",
code, title}` for key `k` and code `c`, as described in the extraction prompt. -/
def passwordResetResult (k c : String) : AIResult :=
  ⟨some "PASSWORD_RESET", some 0, some c, some k, none⟩

/-- Result component of one gate pass over a PASSWORD_RESET submission. -/
def gateOut (db : GateStore) (k c : String) : AIResult :=
  (processAIResponse db (passwordResetResult k c)).1

/-- Store component of one gate pass over a PASSWORD_RESET submission. -/
def gateStep (db : GateStore) (k c : String) : GateStore :=
  (processAIResponse db (passwordResetResult k c)).2

/-! ## Credential rotation and dispatch (src/src/index.ts lines 61-227,
src/unnamed/part_001 lines 387-523) -/

/-- `getNextKeyIndex` (src/src/index.ts lines 61-65): minute bucket of the
current epoch-millisecond clock, modulo the key count. -/
def getNextKeyIndex (nowMs totalKeys : Nat) : Nat :=
  (nowMs / (1000 * 60)) % totalKeys

/-- Outcome of one HTTP call to the Google endpoint with one key: a 2xx
response with a payload, a 429 quota error, another HTTP error status, or a
thrown fetch error. -/
inductive CallOutcome where
  | ok (resp : String)
  | rateLimited
  | httpError (status : Nat)
  | transportError
deriving DecidableEq, Repr

/-- Whether a call outcome is a 2xx success. -/
def isOk : CallOutcome → Bool
  | .ok _ => true
  | _ => false

/-- One network call performed by a dispatch: the Google key index used, or
the OpenAI endpoint. -/
inductive Call where
  | google (i : Nat)
  | openai
deriving DecidableEq, Repr

/-- The errors a dispatch can throw. -/
inductive DispatchError where
  | noCredentials
  | allGoogleFailed
  | allKeysFailed
  | openAIError
deriving DecidableEq, Repr

/-- The `for` loop body of `tryOtherGoogleKeys` over a list of key indexes:
skip `excludeIndex`, return the first 2xx payload, continue on every
failure kind; `none` when the loop runs out. Also records the indexes
actually called, in order. -/
def tryGoogleKeysList (google : Nat → CallOutcome) (excludeIndex : Nat) :
    List Nat → Option String × List Nat
  | [] => (none, [])
  | i :: rest =>
    if i = excludeIndex then tryGoogleKeysList google excludeIndex rest
    else
      match google i with
      | .ok r => (some r, [i])
      | _ =>
        let next := tryGoogleKeysList google excludeIndex rest
        (next.1, i :: next.2)

/-- `tryOtherGoogleKeys` (src/src/index.ts lines 181-227): walk key indexes
`0..n-1` skipping the excluded one. -/
def tryOtherGoogleKeys (google : Nat → CallOutcome) (n excludeIndex : Nat) :
    Option String × List Nat :=
  tryGoogleKeysList google excludeIndex (List.range n)

/-- `callAIWithRoundRobin` (src/src/index.ts lines 110-178). `n` is the
Google key count, `openAIKey` is `none` when no OpenAI key is configured and
otherwise carries the outcome its call would have. The control flow follows
the source: a 429 on the selected key runs `tryOtherGoogleKeys`, and the
`throw` on its failure is caught by the outer `catch`, which runs
`tryOtherGoogleKeys` a second time before rethrowing; any other failure of
the selected key reaches the catch directly and walks once. When Google keys
exist, every failure path ends in the `All Google API keys failed` throw
without reaching the OpenAI branch. -/
def callAIWithRoundRobin (nowMs n : Nat) (openAIKey : Option (Except Unit String))
    (google : Nat → CallOutcome) : Except DispatchError String × List Call :=
  if n == 0 && openAIKey.isNone then (.error .noCredentials, [])
  else if n ≠ 0 then
    let keyIndex := getNextKeyIndex nowMs n
    match google keyIndex with
    | .ok r => (.ok r, [.google keyIndex])
    | .rateLimited =>
      let walk1 := tryOtherGoogleKeys google n keyIndex
      match walk1.1 with
      | some r => (.ok r, .google keyIndex :: walk1.2.map Call.google)
      | none =>
        let walk2 := tryOtherGoogleKeys google n keyIndex
        match walk2.1 with
        | some r =>
          (.ok r, .google keyIndex :: (walk1.2.map Call.google ++ walk2.2.map Call.google))
        | none =>
          (.error .allGoogleFailed,
            .google keyIndex :: (walk1.2.map Call.google ++ walk2.2.map Call.google))
    | _ =>
      let walk := tryOtherGoogleKeys google n keyIndex
      match walk.1 with
      | some r => (.ok r, .google keyIndex :: walk.2.map Call.google)
      | none => (.error .allGoogleFailed, .google keyIndex :: walk.2.map Call.google)
  else
    match openAIKey with
    | some (.ok r) => (.ok r, [.openai])
    | some (.error _) => (.error .openAIError, [.openai])
    | none => (.error .allKeysFailed, [])

/-- `callAIWithRoundRobin` of the v2 variant (src/unnamed/part_001 lines
471-504): any failure of the selected key (thrown by `callSingleGoogleAPI`)
leads to one `tryOtherGoogleKeys` walk, and on its failure control falls
through to the OpenAI branch instead of rethrowing. -/
def callAIWithRoundRobinV2 (nowMs n : Nat) (openAIKey : Option (Except Unit String))
    (google : Nat → CallOutcome) : Except DispatchError String × List Call :=
  if n == 0 && openAIKey.isNone then (.error .noCredentials, [])
  else
    let googlePhase : Option String × List Call :=
      if n = 0 then (none, [])
      else
        let keyIndex := getNextKeyIndex nowMs n
        match google keyIndex with
        | .ok r => (some r, [.google keyIndex])
        | _ =>
          let walk := tryOtherGoogleKeys google n keyIndex
          (walk.1, .google keyIndex :: walk.2.map Call.google)
    match googlePhase.1 with
    | some r => (.ok r, googlePhase.2)
    | none =>
      match openAIKey with
      | some (.ok r) => (.ok r, googlePhase.2 ++ [.openai])
      | some (.error _) => (.error .openAIError, googlePhase.2 ++ [.openai])
      | none => (.error .allKeysFailed, googlePhase.2)

/-! ## Retry controller (src/src/index.ts lines 456-551) -/

/-- The validation applied on the main parse path (src/src/index.ts lines
489-495): a parsed object with `codeExist === 1` must carry truthy `title`,
`code` and `topic`. -/
def validData (d : AIResult) : Bool :=
  !(d.codeExist == some 1 && (falsyStr d.title || falsyStr d.code || falsyStr d.topic))

/-- One orchestrator-level attempt of the retry loop, collapsed to its
observable result: `attempt r` is the object parsed from attempt number `r`
(`none` when the call, response shape or JSON parse failed), and the main
path then discards it when `validData` rejects it (lines 490-495 set
`extractedData = null` and throw). -/
def attemptOutcome (attempt : Nat → Option AIResult) (r : Nat) : Option AIResult :=
  match attempt r with
  | some d => if validData d then some d else none
  | none => none

/-- The `while (retryCount < maxRetries && !extractedData)` loop of the
`email` handler. `fuel` is `maxRetries - retryCount`. A failed attempt with
`retryCount = 0` runs the direct OpenAI fallback (lines 508-537): on its
success the parsed object is accepted with **no validation** and the loop
`break`s; otherwise `retryCount` is incremented and the loop continues.
The second result component counts orchestrator-level attempts
(`callAIWithRoundRobin` invocations). -/
def retryLoopAux (attempt : Nat → Option AIResult) (fallback : Option AIResult) :
    Nat → Nat → Option AIResult × Nat
  | 0, _ => (none, 0)
  | fuel + 1, retryCount =>
    match attemptOutcome attempt retryCount with
    | some d => (some d, 1)
    | none =>
      if retryCount = 0 then
        match fallback with
        | some d => (some d, 1)
        | none =>
          let next := retryLoopAux attempt fallback fuel (retryCount + 1)
          (next.1, next.2 + 1)
      else
        let next := retryLoopAux attempt fallback fuel (retryCount + 1)
        (next.1, next.2 + 1)

/-- `const maxRetries = 3` (src/src/index.ts line 457). -/
def maxRetries : Nat := 3

/-- The retry loop entered at `retryCount = 0` with full fuel. `fallback` is
the object the first-attempt OpenAI fallback would parse, `none` when no
OpenAI key is configured or that path fails. -/
def retryLoop (attempt : Nat → Option AIResult) (fallback : Option AIResult) :
    Option AIResult × Nat :=
  retryLoopAux attempt fallback maxRetries 0

/-! ## Intake pipeline (src/src/index.ts lines 300-612) -/

/-- JavaScript `x || dflt` over an optional string: the default replaces an
absent or empty value (lines 555-557). -/
def orDefault (o : Option String) (dflt : String) : String :=
  match o with
  | none => dflt
  | some s => if s = "" then dflt else s

/-- One row of the `code_mails` table as inserted by the handler. -/
structure CodeRow where
  from_addr : String
  from_org : String
  to_addr : String
  code : String
  topic : String
  message_id : String
deriving DecidableEq, Repr

/-- The database state the intake pipeline touches: the `raw_mails`
idempotency keys and the `code_mails` rows. -/
structure DBState where
  rawIds : List String
  codeMails : List CodeRow
deriving DecidableEq, Repr

/-- The externally visible steps of one `email` invocation. -/
inductive IntakeAction where
  | insertRaw
  | callAI
  | insertResult
deriving DecidableEq, Repr

/-- The `email` handler skeleton (src/src/index.ts lines 300-612): bail out
when no API key is configured; bail out when the message id already has a
`raw_mails` row; insert the raw row (bail out if the insert fails); run the
AI extraction (the retry loop, collapsed here to its final `extractedData`,
`none` when extraction failed); insert a `code_mails` row when
`codeExist === 1`, applying the `||` defaults of lines 555-557. -/
def emailHandler (hasKeys insertRawOk : Bool) (msgFrom msgTo msgId : String)
    (aiOutcome : Option AIResult) (db : DBState) : DBState × List IntakeAction :=
  if !hasKeys then (db, [])
  else if msgId ∈ db.rawIds then (db, [])
  else if !insertRawOk then (db, [.insertRaw])
  else
    let db1 : DBState := { db with rawIds := msgId :: db.rawIds }
    match aiOutcome with
    | none => (db1, [.insertRaw, .callAI])
    | some d =>
      if d.codeExist = some 1 then
        let row : CodeRow :=
          ⟨msgFrom, orDefault d.title "Unknown Organization", msgTo,
            orDefault d.code "No Code Found", orDefault d.topic "No Topic Found", msgId⟩
        ({ db1 with codeMails := row :: db1.codeMails }, [.insertRaw, .callAI, .insertResult])
      else (db1, [.insertRaw, .callAI])

/-! ## Helper lemmas about the gate store -/

theorem lookupRecord_cons (e : String) (r : GateRecord) (db : GateStore) (k : String) :
    lookupRecord ((e, r) :: db) k = if e = k then some r else lookupRecord db k := rfl

theorem updateCount_of_lookup_none {db : GateStore} {k : String}
    (h : lookupRecord db k = none) (n : Nat) : updateCount db k n = db := by
  induction db with
  | nil => rfl
  | cons p rest ih =>
    obtain ⟨e, r⟩ := p
    rw [lookupRecord_cons] at h
    by_cases he : e = k
    · simp [he] at h
    · simp [he] at h
      simp [updateCount, he] at ih ⊢
      exact ih h

theorem deleteRecord_of_lookup_none {db : GateStore} {k : String}
    (h : lookupRecord db k = none) : deleteRecord db k = db := by
  induction db with
  | nil => rfl
  | cons p rest ih =>
    obtain ⟨e, r⟩ := p
    rw [lookupRecord_cons] at h
    by_cases he : e = k
    · simp [he] at h
    · simp [he] at h
      simp [deleteRecord, he] at ih ⊢
      exact ih h

theorem lookupRecord_updateCodeAndReset {db : GateStore} {k : String} {r : GateRecord}
    (h : lookupRecord db k = some r) (c : String) :
    lookupRecord (updateCodeAndReset db k c) k = some ⟨c, 1⟩ := by
  induction db with
  | nil => simp [lookupRecord] at h
  | cons p rest ih =>
    obtain ⟨e, r'⟩ := p
    rw [lookupRecord_cons] at h
    by_cases he : e = k
    · simp [updateCodeAndReset, he, lookupRecord_cons]
    · simp [he] at h
      simp [updateCodeAndReset, he, lookupRecord_cons] at ih ⊢
      exact ih h

/-! ## Gate step lemmas: the four branches of one PASSWORD_RESET pass -/

theorem processAIResponse_new {db : GateStore} {k c : String}
    (hk : k ≠ "") (hc : c ≠ "") (h : lookupRecord db k = none) :
    processAIResponse db (passwordResetResult k c) = (emptyResult, insertRecord db k c) := by
  simp [processAIResponse, passwordResetResult, falsyStr, checkPasswordResetRepeat, h, hc, hk]

theorem processAIResponse_same {db : GateStore} {k c : String} {m : Nat}
    (hk : k ≠ "") (hc : c ≠ "") (h : lookupRecord db k = some ⟨c, m⟩) (hm : m + 1 < 3) :
    processAIResponse db (passwordResetResult k c) = (emptyResult, updateCount db k (m + 1)) := by
  have hm2 : ¬ 2 ≤ m := by omega
  simp [processAIResponse, passwordResetResult, falsyStr, checkPasswordResetRepeat, h, hc, hk, hm2]

theorem processAIResponse_release {db : GateStore} {k c : String} {m : Nat}
    (hk : k ≠ "") (hc : c ≠ "") (h : lookupRecord db k = some ⟨c, m⟩) (hm : 3 ≤ m + 1) :
    processAIResponse db (passwordResetResult k c) =
      (⟨none, some 1, some c, some k, some "Password reset verification (repeated 3 times)"⟩,
        clearPasswordResetHistory (updateCount db k (m + 1)) k) := by
  have hm2 : 2 ≤ m := by omega
  simp [processAIResponse, passwordResetResult, falsyStr, checkPasswordResetRepeat, h, hc, hk, hm2]

theorem processAIResponse_diff {db : GateStore} {k c : String} {r : GateRecord}
    (hk : k ≠ "") (hc : c ≠ "") (h : lookupRecord db k = some r) (hne : r.code ≠ c) :
    processAIResponse db (passwordResetResult k c) = (emptyResult, updateCodeAndReset db k c) := by
  simp [processAIResponse, passwordResetResult, falsyStr, checkPasswordResetRepeat, h, hc, hk, hne]

theorem updateCount_cons_self (k : String) (r : GateRecord) (db : GateStore) (n : Nat) :
    updateCount ((k, r) :: db) k n = (k, { r with count := n }) :: updateCount db k n := by
  simp [updateCount]

theorem deleteRecord_cons_self (k : String) (r : GateRecord) (db : GateStore) :
    deleteRecord ((k, r) :: db) k = deleteRecord db k := by
  simp [deleteRecord]

/-! ## Claim theorems about the Repeat-Gate -/

/-- C1: on a PASSWORD_RESET result for a key with no gate record, submitting
the same code three times yields `{codeExist:0}` (Suppress), `{codeExist:0}`
(Suppress), then the released code (`codeExist:1` carrying the code), and
the release deletes the gate record for the key; submitting a code that
differs from the stored one yields `{codeExist:0}` (Suppress) and resets the
stored record to the new code with count 1. -/
theorem gate_threshold_C1 :
    (∀ (db : GateStore) (k c : String), k ≠ "" → c ≠ "" → lookupRecord db k = none →
      gateOut db k c = emptyResult ∧
      gateOut (gateStep db k c) k c = emptyResult ∧
      (gateOut (gateStep (gateStep db k c) k c) k c).codeExist = some 1 ∧
      (gateOut (gateStep (gateStep db k c) k c) k c).code = some c ∧
      lookupRecord (gateStep (gateStep (gateStep db k c) k c) k c) k = none) ∧
    (∀ (db : GateStore) (k c : String) (r : GateRecord), k ≠ "" → c ≠ "" →
      lookupRecord db k = some r → r.code ≠ c →
      gateOut db k c = emptyResult ∧
      lookupRecord (gateStep db k c) k = some ⟨c, 1⟩) := by
  constructor
  · intro db k c hk hc h
    have h1 := processAIResponse_new hk hc h
    have hs1 : gateStep db k c = (k, (⟨c, 1⟩ : GateRecord)) :: db := by
      simp [gateStep, h1, insertRecord]
    have hl1 : lookupRecord ((k, (⟨c, 1⟩ : GateRecord)) :: db) k = some ⟨c, 1⟩ := by
      simp [lookupRecord_cons]
    have h2 := processAIResponse_same hk hc hl1 (by omega)
    have hs2 : gateStep (gateStep db k c) k c = (k, (⟨c, 2⟩ : GateRecord)) :: db := by
      rw [gateStep, hs1, h2, updateCount_cons_self, updateCount_of_lookup_none h]
    have hl2 : lookupRecord ((k, (⟨c, 2⟩ : GateRecord)) :: db) k = some ⟨c, 2⟩ := by
      simp [lookupRecord_cons]
    have h3 := processAIResponse_release hk hc hl2 (by omega)
    have hs3 : gateStep (gateStep (gateStep db k c) k c) k c = db := by
      rw [gateStep, hs2, h3, clearPasswordResetHistory, updateCount_cons_self,
        updateCount_of_lookup_none h, deleteRecord_cons_self, deleteRecord_of_lookup_none h]
    refine ⟨by simp [gateOut, h1], ?_, ?_, ?_, ?_⟩
    · rw [gateOut, hs1, h2]
    · rw [gateOut, hs2, h3]
    · rw [gateOut, hs2, h3]
    · rw [hs3, h]
  · intro db k c r hk hc h hne
    have hd := processAIResponse_diff hk hc h hne
    exact ⟨by simp [gateOut, hd], by rw [gateStep, hd]; exact lookupRecord_updateCodeAndReset h c⟩

/-- Witness for C1 at a concrete store, key and code. -/
theorem gate_threshold_C1_witness :
    gateOut [] "a@b.com" "123456" = emptyResult ∧
    gateOut (gateStep [] "a@b.com" "123456") "a@b.com" "123456" = emptyResult ∧
    (gateOut (gateStep (gateStep [] "a@b.com" "123456") "a@b.com" "123456") "a@b.com"
        "123456").codeExist = some 1 ∧
    lookupRecord (gateStep (gateStep (gateStep [] "a@b.com" "123456") "a@b.com" "123456")
        "a@b.com" "123456") "a@b.com" = none ∧
    gateOut [("a@b.com", ⟨"111111", 2⟩)] "a@b.com" "123456" = emptyResult := by
  have h1 := gate_threshold_C1.1 [] "a@b.com" "123456" (by decide) (by decide) rfl
  have h2 := gate_threshold_C1.2 [("a@b.com", ⟨"111111", 2⟩)] "a@b.com" "123456"
    ⟨"111111", 2⟩ (by decide) (by decide) rfl (by decide)
  exact ⟨h1.1, h1.2.1, h1.2.2.1, h1.2.2.2.2, h2.1⟩

/-- C10: a PASSWORD_RESET result whose `code` or `title` field is missing or
empty is answered with `{codeExist:0}` and the gate store is left exactly as
it was: no record created, incremented, reset or deleted. -/
theorem gate_frame_C10 (db : GateStore) (r : AIResult)
    (ht : r.type = some "PASSWORD_RESET")
    (h : falsyStr r.code = true ∨ falsyStr r.title = true) :
    processAIResponse db r = (emptyResult, db) := by
  rcases h with h | h <;> simp [processAIResponse, ht, h]

/-- Witness for C10: a PASSWORD_RESET result with no code field. -/
theorem gate_frame_C10_witness :
    processAIResponse [] ⟨some "PASSWORD_RESET", some 0, none, some "a@b.com", none⟩ =
      (emptyResult, []) :=
  gate_frame_C10 [] _ rfl (Or.inl rfl)

/-- C8: when the storage operation the gate evaluation reaches throws (the
SELECT, the INSERT on a fresh key, or the UPDATE on an existing key), the
catch handler yields `false` — the Suppress decision — with the store as the
caller saw it; no Release and no propagated exception. -/
theorem gate_fail_closed_C8 (f : StoreFaults) (db : GateStore) (k c : String)
    (h : f.failGet = true ∨ (lookupRecord db k = none ∧ f.failInsert = true) ∨
      (lookupRecord db k ≠ none ∧ f.failUpdate = true)) :
    checkPasswordResetRepeatF f db k c = (false, db) := by
  unfold checkPasswordResetRepeatF checkPasswordResetRepeatCore
  rcases h with h | ⟨h1, h2⟩ | ⟨h1, h2⟩
  · simp [h]
  · cases hg : f.failGet <;> simp [h1, h2]
  · rcases hl : lookupRecord db k with _ | r
    · exact absurd hl h1
    · cases hg : f.failGet <;> by_cases hrc : r.code = c <;> simp [hl, h2, hrc]

/-- Witness for C8: a failing SELECT on a count-2 record suppresses rather
than releases. -/
theorem gate_fail_closed_C8_witness :
    checkPasswordResetRepeatF ⟨true, false, false⟩ [("a@b.com", ⟨"123456", 2⟩)] "a@b.com"
      "123456" = (false, [("a@b.com", ⟨"123456", 2⟩)]) :=
  gate_fail_closed_C8 ⟨true, false, false⟩ [("a@b.com", ⟨"123456", 2⟩)] "a@b.com" "123456"
    (Or.inl rfl)

/-! ## Claim theorems about rotation and dispatch -/

/-- C4: the rotation cursor is `floor(ms / 60000) mod N`; two clock readings
in the same minute bucket select the same index, and moving `D` buckets
forward advances the index by `D mod N`. -/
theorem rotation_cursor_C4 (N t t1 t2 b D : Nat) (hN : 1 ≤ N) :
    getNextKeyIndex t N = (t / 60000) % N ∧
    (t1 / 60000 = t2 / 60000 → getNextKeyIndex t1 N = getNextKeyIndex t2 N) ∧
    getNextKeyIndex ((b + D) * 60000) N = (getNextKeyIndex (b * 60000) N + D) % N := by
  refine ⟨rfl, ?_, ?_⟩
  · intro h
    show (t1 / (1000 * 60)) % N = (t2 / (1000 * 60)) % N
    simp only [show (1000 * 60 : ℕ) = 60000 from by norm_num]
    rw [h]
  · show ((b + D) * 60000 / (1000 * 60)) % N = ((b * 60000 / (1000 * 60)) % N + D) % N
    have e1 : (b + D) * 60000 / (1000 * 60) = b + D := by omega
    have e2 : b * 60000 / (1000 * 60) = b := by omega
    rw [e1, e2, Nat.add_mod b D N, Nat.add_mod (b % N) D N,
      Nat.mod_mod_of_dvd b (dvd_refl N)]

/-- Witness for C4 with three keys. -/
theorem rotation_cursor_C4_witness :
    getNextKeyIndex 123456789 3 = (123456789 / 60000) % 3 ∧
    getNextKeyIndex 59999 3 = getNextKeyIndex 1 3 ∧
    getNextKeyIndex ((0 + 2) * 60000) 3 = (getNextKeyIndex (0 * 60000) 3 + 2) % 3 := by
  have h := rotation_cursor_C4 3 123456789 59999 1 0 2 (by norm_num)
  exact ⟨h.1, h.2.1 (by norm_num), h.2.2⟩

/-- C5: with zero Google keys and no OpenAI key the dispatch fails at once
with the no-credentials error and performs no network call. -/
theorem fail_fast_C5 (t : Nat) (google : Nat → CallOutcome) :
    callAIWithRoundRobin t 0 none google = (.error .noCredentials, []) := rfl

/-! ## Walk lemmas for `tryGoogleKeysList` -/

theorem tryGoogleKeysList_sublist_filter (google : Nat → CallOutcome) (ex : Nat)
    (l : List Nat) :
    (tryGoogleKeysList google ex l).2.Sublist (l.filter (fun i => i != ex)) := by
  induction l with
  | nil => simp [tryGoogleKeysList]
  | cons i rest ih =>
    by_cases he : i = ex
    · simpa [tryGoogleKeysList, he] using ih
    · cases hg : google i with
      | ok r => simp [tryGoogleKeysList, he, hg]
      | rateLimited => simp [tryGoogleKeysList, he, hg]; exact ih
      | httpError s => simp [tryGoogleKeysList, he, hg]; exact ih
      | transportError => simp [tryGoogleKeysList, he, hg]; exact ih

theorem tryGoogleKeysList_none_eq_filter {google : Nat → CallOutcome} {ex : Nat}
    {l : List Nat} (h : (tryGoogleKeysList google ex l).1 = none) :
    (tryGoogleKeysList google ex l).2 = l.filter (fun i => i != ex) := by
  induction l with
  | nil => simp [tryGoogleKeysList]
  | cons i rest ih =>
    by_cases he : i = ex
    · simp [tryGoogleKeysList, he] at h ⊢
      exact ih h
    · cases hg : google i with
      | ok r => simp [tryGoogleKeysList, he, hg] at h
      | rateLimited => simp [tryGoogleKeysList, he, hg] at h ⊢; exact ih h
      | httpError s => simp [tryGoogleKeysList, he, hg] at h ⊢; exact ih h
      | transportError => simp [tryGoogleKeysList, he, hg] at h ⊢; exact ih h

theorem tryGoogleKeysList_some {google : Nat → CallOutcome} {ex : Nat} {l : List Nat}
    {r : String} (h : (tryGoogleKeysList google ex l).1 = some r) :
    ∃ pre i, (tryGoogleKeysList google ex l).2 = pre ++ [i] ∧ google i = .ok r ∧
      ∀ j ∈ pre, isOk (google j) = false := by
  induction l with
  | nil => simp [tryGoogleKeysList] at h
  | cons i rest ih =>
    by_cases he : i = ex
    · simp [tryGoogleKeysList, he] at h ⊢
      exact ih h
    · cases hg : google i with
      | ok resp =>
        simp [tryGoogleKeysList, he, hg] at h ⊢
        exact ⟨[], i, by simp, by rw [hg, h], by simp⟩
      | rateLimited =>
        simp [tryGoogleKeysList, he, hg] at h ⊢
        obtain ⟨pre, j, htr, hok, hpre⟩ := ih h
        refine ⟨i :: pre, j, by simp [htr], hok, ?_⟩
        intro x hx
        rcases List.mem_cons.mp hx with hx | hx
        · rw [hx, hg]; rfl
        · exact hpre x hx
      | httpError s =>
        simp [tryGoogleKeysList, he, hg] at h ⊢
        obtain ⟨pre, j, htr, hok, hpre⟩ := ih h
        refine ⟨i :: pre, j, by simp [htr], hok, ?_⟩
        intro x hx
        rcases List.mem_cons.mp hx with hx | hx
        · rw [hx, hg]; rfl
        · exact hpre x hx
      | transportError =>
        simp [tryGoogleKeysList, he, hg] at h ⊢
        obtain ⟨pre, j, htr, hok, hpre⟩ := ih h
        refine ⟨i :: pre, j, by simp [htr], hok, ?_⟩
        intro x hx
        rcases List.mem_cons.mp hx with hx | hx
        · rw [hx, hg]; rfl
        · exact hpre x hx

/-- C6 counterexample: with two keys that both fail with 429 and the cursor
on key 0, the dispatch calls key 1 twice (the 429 walk runs, its failure is
thrown, the catch handler walks again). -/
theorem fallback_walk_C6_counterexample :
    (callAIWithRoundRobin 0 2 none (fun _ => .rateLimited)).2 =
      [.google 0, .google 1, .google 1] ∧
    ((callAIWithRoundRobin 0 2 none (fun _ => .rateLimited)).2).count (Call.google 1) = 2 :=
  ⟨rfl, rfl⟩

/-- C6 (amended): one fallback walk attempts other credentials in index
order, skipping only the already-tried index, never attempting a credential
twice within the walk; a failed walk attempts every other credential and a
successful one stops at the first success. However, a dispatch whose
selected credential returns 429 and whose walk finds no success runs the
walk a second time, so each other credential is called twice in that
dispatch. -/
theorem fallback_walk_C6_amended (google : Nat → CallOutcome) (n ex t : Nat)
    (oa : Option (Except Unit String)) :
    (tryOtherGoogleKeys google n ex).2.Sublist ((List.range n).filter (fun i => i != ex)) ∧
    (tryOtherGoogleKeys google n ex).2.Nodup ∧
    ex ∉ (tryOtherGoogleKeys google n ex).2 ∧
    ((tryOtherGoogleKeys google n ex).1 = none →
      (tryOtherGoogleKeys google n ex).2 = (List.range n).filter (fun i => i != ex)) ∧
    (∀ r, (tryOtherGoogleKeys google n ex).1 = some r →
      ∃ pre i, (tryOtherGoogleKeys google n ex).2 = pre ++ [i] ∧ google i = .ok r ∧
        ∀ j ∈ pre, isOk (google j) = false) ∧
    (1 ≤ n → google (getNextKeyIndex t n) = .rateLimited →
      (tryOtherGoogleKeys google n (getNextKeyIndex t n)).1 = none →
      (callAIWithRoundRobin t n oa google).2 =
        .google (getNextKeyIndex t n) ::
          ((tryOtherGoogleKeys google n (getNextKeyIndex t n)).2.map Call.google ++
            (tryOtherGoogleKeys google n (getNextKeyIndex t n)).2.map Call.google)) := by
  have hsub := tryGoogleKeysList_sublist_filter google ex (List.range n)
  refine ⟨hsub, hsub.nodup ((List.nodup_range n).filter _), ?_, ?_, ?_, ?_⟩
  · intro hmem
    have := List.mem_filter.mp (hsub.mem hmem)
    simp at this
  · exact fun h => tryGoogleKeysList_none_eq_filter h
  · exact fun r h => tryGoogleKeysList_some h
  · intro hn hrl hnone
    have hne : (n == 0 && (oa.isNone : Bool)) = false := by
      have : ¬ n = 0 := by omega
      simp [this]
    unfold callAIWithRoundRobin
    rw [if_neg (by simp [hne]), if_pos (show n ≠ 0 by omega)]
    simp only [hrl, hnone]

/-- Witness for the amended C6: three keys all rate-limited, cursor on key 0. -/
theorem fallback_walk_C6_amended_witness :
    (tryOtherGoogleKeys (fun _ => CallOutcome.rateLimited) 3 0).2 =
      (List.range 3).filter (fun i => i != 0) ∧
    (callAIWithRoundRobin 5 3 none (fun _ => CallOutcome.rateLimited)).2 =
      .google (getNextKeyIndex 5 3) ::
        ((tryOtherGoogleKeys (fun _ => CallOutcome.rateLimited) 3
            (getNextKeyIndex 5 3)).2.map Call.google ++
          (tryOtherGoogleKeys (fun _ => CallOutcome.rateLimited) 3
            (getNextKeyIndex 5 3)).2.map Call.google) := by
  have h := fallback_walk_C6_amended (fun _ => CallOutcome.rateLimited) 3 0 5 none
  exact ⟨h.2.2.2.1 rfl, h.2.2.2.2.2 (by norm_num) rfl rfl⟩

/-- C2 (divergence evidence): one Google key that fails with 429, an OpenAI
key configured and healthy. The core dispatch (src/src/index.ts) throws
`All Google API keys failed` without ever calling OpenAI — contradicting its
own comments and log line — while the v2 dispatch (src/unnamed/part_001)
calls OpenAI and returns its response. -/
theorem dispatch_secondary_C2 :
    callAIWithRoundRobin 0 1 (some (.ok "secondary-response")) (fun _ => .rateLimited) =
      (.error .allGoogleFailed, [.google 0]) ∧
    Call.openai ∉ (callAIWithRoundRobin 0 1 (some (.ok "secondary-response"))
      (fun _ => .rateLimited)).2 ∧
    callAIWithRoundRobinV2 0 1 (some (.ok "secondary-response")) (fun _ => .rateLimited) =
      (.ok "secondary-response", [.google 0, .openai]) := by
  refine ⟨rfl, ?_, rfl⟩
  intro hmem
  simp [show (callAIWithRoundRobin 0 1 (some (.ok "secondary-response"))
    (fun _ => .rateLimited)).2 = [.google 0] from rfl] at hmem

/-! ## Claim theorems about the retry controller -/

theorem attemptOutcome_valid {attempt : Nat → Option AIResult} {r : Nat} {d : AIResult}
    (h : attemptOutcome attempt r = some d) : validData d = true := by
  unfold attemptOutcome at h
  rcases hA : attempt r with _ | x
  · rw [hA] at h; simp at h
  · rw [hA] at h
    by_cases hv : validData x = true
    · simp [hv] at h
      rw [← h]
      exact hv
    · simp [hv] at h

/-- C3 counterexample: when the first orchestrator attempt fails and the
first-attempt OpenAI fallback parses `{"codeExist":1,"code":"123456"}` with
no `title`/`topic`, the loop `break`s and returns that object as the
successful extraction result even though the validation predicate rejects
it. -/
theorem validation_C3_counterexample :
    (retryLoop (fun _ => none) (some ⟨none, some 1, some "123456", none, none⟩)).1 =
      some ⟨none, some 1, some "123456", none, none⟩ ∧
    validData ⟨none, some 1, some "123456", none, none⟩ = false :=
  ⟨rfl, rfl⟩

/-- C3 (amended): every successful result of the retry loop either passes
the `codeExist === 1` field validation or came verbatim from the
first-attempt OpenAI fallback path, which performs no validation; in
particular, on every path other than that fallback, an invalid
`codeExist = 1` response is discarded and retried, never returned. -/
theorem validation_C3_amended (attempt : Nat → Option AIResult) (fallback : Option AIResult)
    (d : AIResult) (h : (retryLoop attempt fallback).1 = some d) :
    validData d = true ∨ fallback = some d := by
  suffices H : ∀ fuel rc, (retryLoopAux attempt fallback fuel rc).1 = some d →
      validData d = true ∨ fallback = some d from H maxRetries 0 h
  intro fuel
  induction fuel with
  | zero =>
    intro rc h'
    simp [retryLoopAux] at h'
  | succ fuel ih =>
    intro rc h'
    simp only [retryLoopAux] at h'
    rcases ha : attemptOutcome attempt rc with _ | d'
    · rw [ha] at h'
      by_cases hrc : rc = 0
      · rw [if_pos hrc] at h'
        rcases hf : fallback with _ | df
        · rw [hf] at h'
          simp at h'
          rw [← hf]
          refine ih (rc + 1) ?_
          rw [hf]
          exact h'
        · rw [hf] at h'
          simp at h'
          right
          rw [h']
      · rw [if_neg hrc] at h'
        simp at h'
        exact ih _ h'
    · rw [ha] at h'
      simp at h'
      left
      rw [← h']
      exact attemptOutcome_valid ha
/-- Witness for the amended C3: a valid honest-negative first attempt. -/
theorem validation_C3_amended_witness :
    validData ⟨none, some 0, none, none, none⟩ = true ∨
      (none : Option AIResult) = some ⟨none, some 0, none, none, none⟩ :=
  validation_C3_amended (fun _ => some ⟨none, some 0, none, none, none⟩) none _ rfl

/-- C7: the retry loop makes at most 3 orchestrator-level attempts and
terminates; it ends with no extracted data exactly when all three attempts
fail or produce invalid data and the first-attempt fallback also yields
nothing — and in that case exactly 3 attempts were made, never fewer. -/
theorem retry_bound_C7 (attempt : Nat → Option AIResult) (fallback : Option AIResult) :
    (retryLoop attempt fallback).2 ≤ 3 ∧
    ((retryLoop attempt fallback).1 = none ↔
      (attemptOutcome attempt 0 = none ∧ attemptOutcome attempt 1 = none ∧
        attemptOutcome attempt 2 = none ∧ fallback = none)) ∧
    ((retryLoop attempt fallback).1 = none → (retryLoop attempt fallback).2 = 3) := by
  rcases h0 : attemptOutcome attempt 0 with _ | d0
  · rcases hf : fallback with _ | df
    · rcases h1 : attemptOutcome attempt 1 with _ | d1
      · rcases h2 : attemptOutcome attempt 2 with _ | d2
        · simp [retryLoop, maxRetries, retryLoopAux, h0, h1, h2, hf]
        · simp [retryLoop, maxRetries, retryLoopAux, h0, h1, h2, hf]
      · simp [retryLoop, maxRetries, retryLoopAux, h0, h1, hf]
    · simp [retryLoop, maxRetries, retryLoopAux, h0, hf]
  · simp [retryLoop, maxRetries, retryLoopAux, h0]

/-- Witness for C7: all attempts fail, no fallback — failure reported after
exactly 3 attempts. -/
theorem retry_bound_C7_witness :
    (retryLoop (fun _ => none) none).1 = none ∧ (retryLoop (fun _ => none) none).2 = 3 := by
  have h := retry_bound_C7 (fun _ => none) none
  exact ⟨h.2.1.mpr ⟨rfl, rfl, rfl, rfl⟩, h.2.2 (h.2.1.mpr ⟨rfl, rfl, rfl, rfl⟩)⟩

/-! ## Claim theorem about the intake pipeline -/

theorem emailHandler_dup (rok : Bool) (mf mt mid : String) (ao : Option AIResult)
    (db : DBState) (h : mid ∈ db.rawIds) :
    emailHandler true rok mf mt mid ao db = (db, []) := by
  simp [emailHandler, h]

/-- C9: processing the same message identifier twice leaves exactly one
`raw_mails` record and at most one `code_mails` record for it, and the
second invocation detects the duplicate and performs none of the intake
actions: no raw insert, no AI call, no result insert. -/
theorem idempotent_intake_C9 (rok2 : Bool) (ao1 ao2 : Option AIResult)
    (f1 t1 f2 t2 msgId : String) (db : DBState)
    (hraw : msgId ∉ db.rawIds)
    (hres : ∀ row ∈ db.codeMails, row.message_id ≠ msgId) :
    emailHandler true rok2 f2 t2 msgId ao2 (emailHandler true true f1 t1 msgId ao1 db).1 =
      ((emailHandler true true f1 t1 msgId ao1 db).1, []) ∧
    ((emailHandler true true f1 t1 msgId ao1 db).1).rawIds.count msgId = 1 ∧
    (((emailHandler true true f1 t1 msgId ao1 db).1).codeMails.filter
      (fun row => row.message_id == msgId)).length ≤ 1 := by
  have hfilnil : db.codeMails.filter (fun row => row.message_id == msgId) = [] := by
    rw [List.filter_eq_nil_iff]
    intro row hrow
    simp [hres row hrow]
  have step1 : ((emailHandler true true f1 t1 msgId ao1 db).1).rawIds = msgId :: db.rawIds := by
    rcases ao1 with _ | d
    · simp [emailHandler, hraw]
    · by_cases hce : d.codeExist = some 1 <;> simp [emailHandler, hraw, hce]
  have hfil : (((emailHandler true true f1 t1 msgId ao1 db).1).codeMails.filter
      (fun row => row.message_id == msgId)).length ≤ 1 := by
    rcases ao1 with _ | d
    · simp [emailHandler, hraw, hfilnil]
    · by_cases hce : d.codeExist = some 1 <;> simp [emailHandler, hraw, hce, hfilnil]
  have hdup : msgId ∈ ((emailHandler true true f1 t1 msgId ao1 db).1).rawIds := by
    rw [step1]
    exact List.mem_cons_self _ _
  refine ⟨?_, ?_, hfil⟩
  · exact emailHandler_dup rok2 f2 t2 msgId ao2 _ hdup
  · rw [step1, List.count_cons_self, List.count_eq_zero.mpr hraw]

/-- Witness for C9 on an empty store with a code-bearing first extraction. -/
theorem idempotent_intake_C9_witness :
    emailHandler true true "f" "t" "m1" none
        (emailHandler true true "f" "t" "m1"
          (some ⟨none, some 1, some "123456", some "a@b.com", some "login"⟩) ⟨[], []⟩).1 =
      ((emailHandler true true "f" "t" "m1"
        (some ⟨none, some 1, some "123456", some "a@b.com", some "login"⟩) ⟨[], []⟩).1, []) ∧
    ((emailHandler true true "f" "t" "m1"
        (some ⟨none, some 1, some "123456", some "a@b.com", some "login"⟩) ⟨[], []⟩).1).rawIds.count
      "m1" = 1 ∧
    (((emailHandler true true "f" "t" "m1"
        (some ⟨none, some 1, some "123456", some "a@b.com", some "login"⟩) ⟨[], []⟩).1).codeMails.filter
      (fun row => row.message_id == "m1")).length ≤ 1 :=
  idempotent_intake_C9 true (some ⟨none, some 1, some "123456", some "a@b.com", some "login"⟩)
    none "f" "t" "f" "t" "m1" ⟨[], []⟩ (by simp) (by simp)

end AuthInbox
